import Mathlib

/-!
Verification of the SAIF rejection-email generator
(`src/apps/crm/rejection-agent/saif_rejection_agent.py`).

The Python module builds a rejection email from an `Application` record:
a greeting, a fixed opening, a feedback paragraph chosen from a fixed
template catalog by the first rejection-reason tag, and a closing built
from a keyword heuristic over the description. All of it is pure string
manipulation, embedded here directly. Python strings are Lean `String`s;
Python `str.lower()` is per-character ASCII lowering (`Char.toLower`);
`needle in haystack` is list-infix containment on the character lists;
the `dict` catalog is an association list in declaration order.
-/

namespace SaifRejectionAgent

/-- Represents a SAIF application (the `Application` dataclass). -/
structure Application where
  company_name : String
  contact_email : String
  founder_names : Option String
  description : String
  rejection_reasons : List String

/-- One entry of the rejection-template catalog: a summary label and a
template body whose placeholders are left literal. -/
structure RejectionTemplate where
  summary : String
  template : String

/-- The fixed template catalog `REJECTION_TEMPLATES`, keyed by reason tag,
in declaration order. -/
def REJECTION_TEMPLATES : List (String × RejectionTemplate) :=
  [ ("not_ai_safety",
     { summary := "Product is not focused on AI safety"
       template := "Your work on {product_focus} is meaningful and clearly impactful. However, {company_name} is focused on {actual_focus} rather than on technologies that directly improve safety and security in the presence of risks created by advanced AI systems. Because of this, the project falls outside the scope of SAIF\x27s investment mandate." }),
    ("early_stage_no_team",
     { summary := "Too early stage with incomplete founding team"
       template := "{product_area} is an important direction, and we can see why this category will matter as agentic systems become more widely deployed. However, {company_name} is still at a very early stage, and we generally look for teams with a committed founding group, clear technical ownership, and a more defined product trajectory before engaging as investors. Given the current state of the team and the work, we don\x27t believe this is the right fit for SAIF at this time." }),
    ("no_tech_cofounder",
     { summary := "Lacks technical founding leadership"
       template := "{problem_statement} is an important problem, and we can see the appeal of a product that {product_appeal}. However, SAIF typically looks for teams with strong technical founding leadership given the complexity and competitiveness of building safety-critical AI systems. At this stage, and without a technical cofounder driving the core system, we don\x27t believe {company_name} is the right fit for SAIF\x27s focus." }),
    ("too_conceptual",
     { summary := "Approach is too conceptual or lacks clear technical pathway"
       template := "Your proposal explores ambitious ideas around {topic_area}. However, the approach as described is highly conceptual, and it\x27s difficult for us to assess a clear technical pathway, feasibility, or near-term product direction. SAIF\x27s focus is on companies building practical, deployable technologies that can be validated and scaled to improve safety and security in real-world AI systems, and {company_name} does not currently align with that focus." }),
    ("safety_angle_unclear",
     { summary := "Safety impact is not clear or central to the product"
       template := "{company_name}\x27s approach to {product_description} is thoughtful, and we can see how tools like this could be valuable for {target_users}. However, SAIF\x27s focus is on companies building products that directly improve safety and security in the presence of advanced AI systems, and we are not yet convinced that {company_name}\x27s safety impact is sufficiently clear or central to the product. In addition, we typically look for teams with a full-time founder." }),
    ("not_for_profit",
     { summary := "Not a for-profit company with scalable business model"
       template := "We appreciate the work you\x27ve put into {company_name} and your commitment to developing {mission}. However, SAIF is structured specifically to invest in for-profit companies with scalable business models. As {company_name} is {structure} and won\x27t be offering equity to investors, we do not see a clear path for sufficient venture funding to be raised. Additionally, it is unclear to us that {distribution_concern}." }),
    ("general_not_aligned",
     { summary := "General non-alignment with SAIF focus"
       template := "We appreciate your ambition to {mission}. However, {company_name} appears primarily focused on {actual_focus}, which, while potentially impactful, are not aligned with SAIF\x27s mission. Our focus is specifically centered on companies building products that directly improve safety and security in the presence of threats caused or created by AI systems. Given this focus, {category} sit outside the scope of what we fund." }) ]

/-- Python `s.lower()`: lower-case every character (ASCII range, as
`Char.toLower` does). -/
def lower (s : String) : String := ⟨s.data.map Char.toLower⟩

/-- Python `needle in haystack` on strings: substring containment,
as infix containment of the character lists. -/
def strContains (haystack needle : String) : Bool :=
  decide (needle.data <:+: haystack.data)

/-- Python `s.startswith(p)`: `p` is a prefix of `s`. -/
def strStartsWith (s p : String) : Bool :=
  decide (p.data <+: s.data)

/-- Python `s.endswith(p)`: `p` is a suffix of `s`. -/
def strEndsWith (s p : String) : Bool :=
  decide (p.data <:+ s.data)

/-- The feedback paragraph (`generate_feedback_paragraph`, lines 112-133):
empty reasons give a fallback citing the company name; otherwise the first
reason is looked up in the catalog; a hit yields the bracketed summary label
and the raw template body, a miss yields a second fixed fallback. -/
def generate_feedback_paragraph (application : Application) : String :=
  match application.rejection_reasons with
  | [] =>
      "While we appreciate your submission, " ++ application.company_name ++
        " does not currently align with our investment criteria."
  | primary_reason :: _ =>
      match List.lookup primary_reason REJECTION_TEMPLATES with
      | some template_info =>
          "[TEMPLATE: " ++ template_info.summary ++ "]\n" ++ template_info.template
      | none =>
          "The project does not currently align with SAIF\x27s focus on companies building practical technologies that directly improve safety and security in real-world AI systems."

/-- The closing wish (`get_closing_wish`, lines 136-151): lower-case the
description and test keywords in priority order. -/
def get_closing_wish (application : Application) : String :=
  let description_lower := lower application.description
  if strContains description_lower "building" || strContains description_lower "develop" then
    "building the company"
  else if strContains description_lower "platform" then
    "developing the platform"
  else if strContains description_lower "research" then
    "developing your ideas"
  else if strContains description_lower "product" then
    "building and refining the product"
  else
    "developing your ideas"

/-- The greeting (lines 79-83): Python truthiness of `founder_names`, so
`None` and the empty string both fall back to the generic greeting. -/
def greetingOf (application : Application) : String :=
  match application.founder_names with
  | some names => if names = "" then "Hi there," else "Hi " ++ names ++ ","
  | none => "Hi there,"

/-- The fixed opening sentence (lines 85-88), templated with the company
name. -/
def openingOf (application : Application) : String :=
  "Thanks very much for expressing interest in being part of SAIF and our efforts to create a better future with AI. Unfortunately at this time we don\x27t think that " ++
    application.company_name ++ " fits within the criteria we are using for our fund."

/-- The fixed signature block ending every email. -/
def signature : String := "Best,\nThe SAIF Team"

/-- The closing (lines 94-98): wish sentence, blank line, signature. -/
def closingOf (application : Application) : String :=
  "We wish you the best as you continue " ++ get_closing_wish application ++
    ".\n\n" ++ signature

/-- The composer (`generate_rejection_email`, lines 67-109): greeting,
opening, feedback and closing joined by blank lines. -/
def generate_rejection_email (application : Application) : String :=
  let greeting := greetingOf application
  let opening := openingOf application
  let feedback := generate_feedback_paragraph application
  let closing := closingOf application
  greeting ++ "\n\n" ++ opening ++ "\n\n" ++ feedback ++ "\n\n" ++ closing

/-- Two characters are case variants when the second is the first, its
upper-cased form, or its lower-cased form. -/
def caseVariantChar (a b : Char) : Prop := b = a ∨ b = a.toUpper ∨ b = a.toLower

instance : DecidableRel caseVariantChar := fun a b => by
  unfold caseVariantChar; exact inferInstance

set_option maxRecDepth 20000

theorem data_append (a b : String) : (a ++ b).data = a.data ++ b.data := by
  cases a; cases b; rfl

theorem strStartsWith_append (a b : String) : strStartsWith (a ++ b) a = true := by
  simp only [strStartsWith, data_append, decide_eq_true_eq]
  exact ⟨b.data, rfl⟩

theorem strEndsWith_append (a b : String) : strEndsWith (a ++ b) b = true := by
  simp only [strEndsWith, data_append, decide_eq_true_eq]
  exact ⟨a.data, rfl⟩

theorem strEndsWith_append_left (a b c : String) (h : strEndsWith b c = true) :
    strEndsWith (a ++ b) c = true := by
  simp only [strEndsWith, decide_eq_true_eq] at h ⊢
  obtain ⟨u, hu⟩ := h
  exact ⟨a.data ++ u, by rw [data_append, List.append_assoc, hu]⟩

theorem strContains_middle (a s b : String) : strContains (a ++ s ++ b) s = true := by
  simp only [strContains, data_append, decide_eq_true_eq]
  exact ⟨a.data, b.data, rfl⟩

/-- C7: for applications with a non-empty reason list, the composed email
depends only on the first rejection reason: the elements after the first
never influence the output. -/
theorem email_depends_only_on_first_reason
    (c ce d : String) (fn : Option String) (r : String) (t₁ t₂ : List String) :
    generate_rejection_email ⟨c, ce, fn, d, r :: t₁⟩ =
      generate_rejection_email ⟨c, ce, fn, d, r :: t₂⟩ := rfl

/-- C9: the composed email never depends on the contact_email field: two
applications differing only there produce identical output. -/
theorem email_ignores_contact_email
    (c d : String) (fn : Option String) (rs : List String) (ce₁ ce₂ : String) :
    generate_rejection_email ⟨c, ce₁, fn, d, rs⟩ =
      generate_rejection_email ⟨c, ce₂, fn, d, rs⟩ := rfl

/-- C8: the composer is deterministic and pure: applications with identical
field values yield identical output strings. -/
theorem email_deterministic (a b : Application)
    (h₁ : a.company_name = b.company_name)
    (h₂ : a.contact_email = b.contact_email)
    (h₃ : a.founder_names = b.founder_names)
    (h₄ : a.description = b.description)
    (h₅ : a.rejection_reasons = b.rejection_reasons) :
    generate_rejection_email a = generate_rejection_email b := by
  cases a; cases b; simp_all

theorem email_deterministic_witness :
    generate_rejection_email ⟨"Acme", "a@b.c", none, "a product", []⟩ =
      generate_rejection_email ⟨"Acme", "a@b.c", none, "a product", []⟩ :=
  email_deterministic _ _ rfl rfl rfl rfl rfl

/-- C2: when the first rejection reason is a catalog tag, the feedback
paragraph is exactly the bracketed summary label, a newline, and the raw
template body. -/
theorem feedback_template_hit (app : Application) (tag : String)
    (rest : List String) (info : RejectionTemplate)
    (hr : app.rejection_reasons = tag :: rest)
    (hl : List.lookup tag REJECTION_TEMPLATES = some info) :
    generate_feedback_paragraph app =
      "[TEMPLATE: " ++ info.summary ++ "]\n" ++ info.template := by
  simp [generate_feedback_paragraph, hr, hl]

theorem feedback_template_hit_witness :
    generate_feedback_paragraph ⟨"Acme", "", none, "", ["not_ai_safety"]⟩ =
      "[TEMPLATE: " ++ "Product is not focused on AI safety" ++ "]\n" ++
        "Your work on {product_focus} is meaningful and clearly impactful. However, {company_name} is focused on {actual_focus} rather than on technologies that directly improve safety and security in the presence of risks created by advanced AI systems. Because of this, the project falls outside the scope of SAIF\x27s investment mandate." :=
  feedback_template_hit _ "not_ai_safety" [] _ rfl rfl

/-- C6: with an empty reason list the feedback paragraph is the fixed
fallback sentence, and that sentence contains the company name. -/
theorem feedback_empty_reasons (app : Application)
    (h : app.rejection_reasons = []) :
    generate_feedback_paragraph app =
      "While we appreciate your submission, " ++ app.company_name ++
        " does not currently align with our investment criteria." ∧
    strContains (generate_feedback_paragraph app) app.company_name = true := by
  have he : generate_feedback_paragraph app =
      "While we appreciate your submission, " ++ app.company_name ++
        " does not currently align with our investment criteria." := by
    simp [generate_feedback_paragraph, h]
  exact ⟨he, by rw [he]; exact strContains_middle _ _ _⟩

theorem feedback_empty_reasons_witness :
    generate_feedback_paragraph ⟨"Acme", "", none, "", []⟩ =
      "While we appreciate your submission, " ++ "Acme" ++
        " does not currently align with our investment criteria." ∧
    strContains (generate_feedback_paragraph ⟨"Acme", "", none, "", []⟩) "Acme" = true :=
  feedback_empty_reasons ⟨"Acme", "", none, "", []⟩ rfl

/-- C1 counterexample: for the unknown tag "nonexistent_tag" the feedback
paragraph is neither equal to the empty-reasons fallback nor does it contain
the company name "Acme". -/
theorem unknown_tag_fallback_differs :
    generate_feedback_paragraph ⟨"Acme", "", none, "", ["nonexistent_tag"]⟩ ≠
      generate_feedback_paragraph ⟨"Acme", "", none, "", []⟩ ∧
    strContains
      (generate_feedback_paragraph ⟨"Acme", "", none, "", ["nonexistent_tag"]⟩)
      "Acme" = false := by
  constructor <;> decide

/-- C1 amended: when the first rejection reason is not a catalog tag, the
feedback paragraph is a fixed generic fallback sentence, but it is a
different sentence from the empty-reasons fallback and does not cite the
company name. -/
theorem feedback_unknown_tag (app : Application) (tag : String)
    (rest : List String)
    (hr : app.rejection_reasons = tag :: rest)
    (hl : List.lookup tag REJECTION_TEMPLATES = none) :
    generate_feedback_paragraph app =
      "The project does not currently align with SAIF\x27s focus on companies building practical technologies that directly improve safety and security in real-world AI systems." := by
  simp [generate_feedback_paragraph, hr, hl]

theorem feedback_unknown_tag_witness :
    generate_feedback_paragraph ⟨"Acme", "", none, "", ["nonexistent_tag"]⟩ =
      "The project does not currently align with SAIF\x27s focus on companies building practical technologies that directly improve safety and security in real-world AI systems." :=
  feedback_unknown_tag _ "nonexistent_tag" [] rfl rfl

theorem email_startsWith_greeting (app : Application) :
    strStartsWith (generate_rejection_email app) (greetingOf app) = true := by
  simp only [strStartsWith, generate_rejection_email, data_append,
    List.append_assoc, decide_eq_true_eq]
  exact ⟨_, rfl⟩

/-- C3: the composed email starts with "Hi <founder_names>," when
founder_names is present and non-empty, and with "Hi there," when it is
absent or empty. -/
theorem greeting_spec (app : Application) :
    (∀ names, app.founder_names = some names → names ≠ "" →
      strStartsWith (generate_rejection_email app) ("Hi " ++ names ++ ",") = true) ∧
    ((app.founder_names = none ∨ app.founder_names = some "") →
      strStartsWith (generate_rejection_email app) "Hi there," = true) := by
  constructor
  · intro names hn hne
    have hg : greetingOf app = "Hi " ++ names ++ "," := by
      simp [greetingOf, hn, hne]
    have := email_startsWith_greeting app
    rwa [hg] at this
  · intro h
    have hg : greetingOf app = "Hi there," := by
      rcases h with h | h <;> simp [greetingOf, h]
    have := email_startsWith_greeting app
    rwa [hg] at this

theorem greeting_spec_witness :
    strStartsWith (generate_rejection_email ⟨"Acme", "", some "Jo", "", []⟩)
      ("Hi " ++ "Jo" ++ ",") = true ∧
    strStartsWith (generate_rejection_email ⟨"Acme", "", none, "", []⟩)
      "Hi there," = true :=
  ⟨(greeting_spec ⟨"Acme", "", some "Jo", "", []⟩).1 "Jo" rfl (by decide),
   (greeting_spec ⟨"Acme", "", none, "", []⟩).2 (Or.inl rfl)⟩

/-- C5: the composed email is exactly greeting, opening, feedback and
closing in that order, each pair joined by a blank line, the closing being
the wish sentence built from get_closing_wish followed by the fixed
signature block, which ends the output. -/
theorem email_assembly (app : Application) :
    generate_rejection_email app =
      greetingOf app ++ "\n\n" ++ openingOf app ++ "\n\n" ++
        generate_feedback_paragraph app ++ "\n\n" ++
        ("We wish you the best as you continue " ++ get_closing_wish app ++
          ".\n\n" ++ "Best,\nThe SAIF Team") ∧
    strEndsWith (generate_rejection_email app) "Best,\nThe SAIF Team" = true := by
  constructor
  · rfl
  · exact strEndsWith_append_left _ _ _
      (strEndsWith_append_left _ _ _ (by decide))

/-- C4: the closing wish always returns one of the five fixed phrases; it
is chosen by testing the lower-cased description for keywords in the fixed
priority order building/develop, platform, research, product, default; and
the description "We are building a platform" yields "building the
company". -/
theorem closing_wish_spec :
    (∀ app : Application,
      get_closing_wish app = "building the company" ∨
      get_closing_wish app = "developing the platform" ∨
      get_closing_wish app = "developing your ideas" ∨
      get_closing_wish app = "building and refining the product") ∧
    (∀ app : Application,
      (strContains (lower app.description) "building" = true ∨
       strContains (lower app.description) "develop" = true) →
      get_closing_wish app = "building the company") ∧
    (∀ app : Application,
      strContains (lower app.description) "building" = false →
      strContains (lower app.description) "develop" = false →
      strContains (lower app.description) "platform" = true →
      get_closing_wish app = "developing the platform") ∧
    (∀ app : Application,
      strContains (lower app.description) "building" = false →
      strContains (lower app.description) "develop" = false →
      strContains (lower app.description) "platform" = false →
      strContains (lower app.description) "research" = true →
      get_closing_wish app = "developing your ideas") ∧
    (∀ app : Application,
      strContains (lower app.description) "building" = false →
      strContains (lower app.description) "develop" = false →
      strContains (lower app.description) "platform" = false →
      strContains (lower app.description) "research" = false →
      strContains (lower app.description) "product" = true →
      get_closing_wish app = "building and refining the product") ∧
    (∀ app : Application,
      strContains (lower app.description) "building" = false →
      strContains (lower app.description) "develop" = false →
      strContains (lower app.description) "platform" = false →
      strContains (lower app.description) "research" = false →
      strContains (lower app.description) "product" = false →
      get_closing_wish app = "developing your ideas") ∧
    get_closing_wish ⟨"Acme", "", none, "We are building a platform", []⟩ =
      "building the company" := by
  refine ⟨?_, ?_, ?_, ?_, ?_, ?_, by decide⟩
  · intro app
    dsimp only [get_closing_wish]
    split
    · exact Or.inl rfl
    · split
      · exact Or.inr (Or.inl rfl)
      · split
        · exact Or.inr (Or.inr (Or.inl rfl))
        · split
          · exact Or.inr (Or.inr (Or.inr rfl))
          · exact Or.inr (Or.inr (Or.inl rfl))
  · intro app h
    rcases h with h | h <;> simp [get_closing_wish, h]
  · intro app h₁ h₂ h₃
    simp [get_closing_wish, h₁, h₂, h₃]
  · intro app h₁ h₂ h₃ h₄
    simp [get_closing_wish, h₁, h₂, h₃, h₄]
  · intro app h₁ h₂ h₃ h₄ h₅
    simp [get_closing_wish, h₁, h₂, h₃, h₄, h₅]
  · intro app h₁ h₂ h₃ h₄ h₅
    simp [get_closing_wish, h₁, h₂, h₃, h₄, h₅]

theorem closing_wish_spec_witness :
    get_closing_wish ⟨"Acme", "", none, "A platform", []⟩ =
      "developing the platform" :=
  closing_wish_spec.2.2.1 ⟨"Acme", "", none, "A platform", []⟩
    (by decide) (by decide) (by decide)

theorem toNat_ofNat_of_valid {n : Nat} (h : n.isValidChar) :
    (Char.ofNat n).toNat = n := by
  rw [Char.ofNat, dif_pos h]; rfl

theorem toLower_toUpper (c : Char) : c.toUpper.toLower = c.toLower := by
  unfold Char.toUpper Char.toLower
  by_cases h : c.toNat ≥ 97 ∧ c.toNat ≤ 122
  · rw [if_pos h]
    have ht : (Char.ofNat (c.toNat - 32)).toNat = c.toNat - 32 :=
      toNat_ofNat_of_valid (Or.inl (by omega))
    simp only [ht]
    rw [if_pos (by omega : c.toNat - 32 ≥ 65 ∧ c.toNat - 32 ≤ 90),
      if_neg (by omega : ¬(c.toNat ≥ 65 ∧ c.toNat ≤ 90))]
    have hn : c.toNat - 32 + 32 = c.toNat := by omega
    rw [hn, Char.ofNat_toNat]
  · simp only [if_neg h]

theorem toLower_toLower (c : Char) : c.toLower.toLower = c.toLower := by
  unfold Char.toLower
  by_cases h : c.toNat ≥ 65 ∧ c.toNat ≤ 90
  · rw [if_pos h]
    have ht : (Char.ofNat (c.toNat + 32)).toNat = c.toNat + 32 :=
      toNat_ofNat_of_valid (Or.inl (by omega))
    simp only [ht]
    rw [if_neg (by omega : ¬(c.toNat + 32 ≥ 65 ∧ c.toNat + 32 ≤ 90))]
  · simp only [if_neg h]

theorem map_toLower_eq_of_caseVariant (l₁ l₂ : List Char)
    (h : List.Forall₂ caseVariantChar l₁ l₂) :
    l₂.map Char.toLower = l₁.map Char.toLower := by
  induction h with
  | nil => rfl
  | cons hab _ ih =>
      simp only [List.map_cons, ih, List.cons.injEq, and_true]
      rcases hab with rfl | rfl | rfl
      · rfl
      · exact toLower_toUpper _
      · exact toLower_toLower _

theorem lower_eq_of_caseVariant (s t : String)
    (h : List.Forall₂ caseVariantChar s.data t.data) : lower t = lower s := by
  simp only [lower]
  exact congrArg String.mk (map_toLower_eq_of_caseVariant _ _ h)

/-- C10: the closing wish is invariant under letter-case changes of the
description: replacing each character by itself, its upper-cased or its
lower-cased form leaves the returned phrase unchanged. -/
theorem closing_wish_case_invariant (app : Application) (d : String)
    (h : List.Forall₂ caseVariantChar app.description.data d.data) :
    get_closing_wish { app with description := d } = get_closing_wish app := by
  obtain ⟨c, ce, fn, desc, rs⟩ := app
  have hl : lower d = lower desc := lower_eq_of_caseVariant _ _ h
  simp [get_closing_wish, hl]

theorem closing_wish_case_invariant_witness :
    get_closing_wish ⟨"Acme", "", none, "BUILDING FAST", []⟩ =
      get_closing_wish ⟨"Acme", "", none, "building fast", []⟩ :=
  closing_wish_case_invariant ⟨"Acme", "", none, "building fast", []⟩
    "BUILDING FAST" (by decide)

end SaifRejectionAgent
